import Mathlib

/-!
# Verification of the Thyracont Smartline V1 protocol driver

Shallow embedding of `pymeasure/instruments/thyracont/smartline_v1.py`.
Python strings are modelled as Lean `String`s (lists of characters), the
checksum arithmetic is carried out on `Nat` character codes, and the
fallible `read`/`check_errors` methods are modelled as `Except`-valued
functions.  The mutable device instance is modelled as a structure whose
methods are explicit state transformers.
-/

/-- The device instance.  `__init__` stores the RS485 `address` attribute;
it is the only instance attribute the protocol core uses. -/
structure SmartlineV1 where
  address : Int
deriving DecidableEq

namespace SmartlineV1

/-- `SmartlineV1._checksum`: `chr(sum(map(ord, msg)) % 64 + 64)`. -/
def _checksum (msg : String) : Char :=
  Char.ofNat ((msg.data.map Char.toNat).sum % 64 + 64)

/-- Outcomes of the fallible parts of `SmartlineV1.read`.  `indexError`
models the Python `IndexError` raised by `msg[-1]` on an empty string;
`checksumError` models the `ValueError` raised on a checksum mismatch,
carrying the raw message, the recomputed (expected) checksum and the
received checksum character that the f-string interpolates. -/
inductive ReadError
  | indexError
  | checksumError (raw : String) (expected received : Char)
deriving DecidableEq

/-- `SmartlineV1.read` applied to the line `msg` delivered by the transport
(read terminator `"\r"` already stripped).  The Python body computes
`chksum = self._checksum(msg[:-1])`, then evaluates `msg[-1]` (raising
`IndexError` on an empty string), returns `msg[:-1]` when the final
character equals the recomputed checksum and raises a checksum `ValueError`
otherwise. -/
def read (msg : String) : Except ReadError String :=
  let body := String.mk msg.data.dropLast
  let chksum := _checksum body
  match msg.data.getLast? with
  | none => .error .indexError
  | some last =>
    if last = chksum then .ok body
    else .error (.checksumError msg chksum last)

/-- Python's `f"{a:03d}"`: minimum width 3, zero fill, the sign of a
negative number counted inside the width and placed before the fill. -/
def format03d (a : Int) : String :=
  if a < 0 then
    let ds := Nat.repr a.natAbs
    "-" ++ String.mk (List.replicate (2 - ds.length) '0') ++ ds
  else
    let ds := Nat.repr a.toNat
    String.mk (List.replicate (3 - ds.length) '0') ++ ds

/-- `SmartlineV1.write`: builds `fullcmd = f"{self.address:03d}" + command`
and hands `fullcmd + self._checksum(fullcmd)` to the transport (which
appends the `"\r"` terminator).  The method reads `self.address` and
mutates nothing, so as a state transformer it returns the device unchanged
together with the transmitted frame (terminator excluded). -/
def write (dev : SmartlineV1) (command : String) : SmartlineV1 × String :=
  let fullcmd := format03d dev.address ++ command
  (dev, fullcmd.push (_checksum fullcmd))

/-- Outcomes of the two `ValueError` branches of
`SmartlineV1.check_errors`: a decoded reply shorter than 4 characters, or
a reply whose character at index 3 is `'N'` or `'X'`. -/
inductive CheckError
  | frameTooShort (reply : String)
  | deviceError (reply : String)
deriving DecidableEq

/-- `SmartlineV1.check_errors` applied to an already decoded reply: raises
on `len(reply) < 4`, then on `reply[3] in ["N", "X"]`, and otherwise
returns the empty error list `[]`. -/
def check_errors (reply : String) : Except CheckError (List String) :=
  if reply.length < 4 then .error (.frameTooShort reply)
  else if reply.data.getD 3 ' ' = 'N' ∨ reply.data.getD 3 ' ' = 'X' then
    .error (.deviceError reply)
  else .ok []

/-- `SmartlineV1.__init__` with the given `address` argument. -/
def init (address : Int) : SmartlineV1 :=
  { address := address }

/-- `SmartlineV1.read` as a state transformer on the device instance: the
method decodes the transport line and touches no instance attribute. -/
def readOp (dev : SmartlineV1) (msg : String) :
    SmartlineV1 × Except ReadError String :=
  (dev, read msg)

/-- `SmartlineV1.check_errors` as a state transformer: it calls
`self.read()` on the raw acknowledgement line and checks the decoded
reply, touching no instance attribute. -/
def check_errorsOp (dev : SmartlineV1) (raw : String) :
    SmartlineV1 × Except ReadError (Except CheckError (List String)) :=
  (dev, (read raw).map check_errors)

/-- Python's `int(s)` / `float(s)` on a string of decimal digits. -/
def parseDecimal (s : String) : Nat :=
  s.data.foldl (fun a c => a * 10 + (c.toNat - 48)) 0

/-- The `get_process` closure of the `pressure` measurement:
`float(s[:4]) / 1000 * 10 ** (int(s[4:]) - 20)`, on the data field `s`
(the reply with its 4-character address+command prefix already stripped by
`preprocess_reply`).  Python float arithmetic is modelled exactly over
`ℚ`; at the magnitudes the device produces the Python expression is the
correctly rounded value of this rational. -/
def pressure_get_process (s : String) : ℚ :=
  (parseDecimal (String.mk (s.data.take 4)) : ℚ) / 1000 *
    (10 : ℚ) ^ ((parseDecimal (String.mk (s.data.drop 4)) : ℤ) - 20)

end SmartlineV1

deriving instance DecidableEq for Except

/-! ## Basic string–list bridging facts -/

theorem string_data_append (s t : String) : (s ++ t).data = s.data ++ t.data := rfl

theorem string_data_push (s : String) (c : Char) :
    (s.push c).data = s.data ++ [c] := rfl

theorem string_mk_data (s : String) : String.mk s.data = s := rfl

theorem string_length_eq (s : String) : s.length = s.data.length := rfl

/-- `Char.ofNat` then `Char.toNat` round-trips on valid code points. -/
theorem char_toNat_ofNat {n : Nat} (h : n.isValidChar) :
    (Char.ofNat n).toNat = n := by
  simp only [Char.ofNat, dif_pos h, Char.ofNatAux, Char.toNat, UInt32.toNat]
  simp

/-- Key decoding lemma: `read` on a message of the shape `body ++ [c]`
compares `c` with the checksum of `body` and returns `body` or a checksum
error accordingly. -/
theorem read_push (body : String) (c : Char) :
    SmartlineV1.read (body.push c) =
      if c = SmartlineV1._checksum body then .ok body
      else .error (.checksumError (body.push c) (SmartlineV1._checksum body) c) := by
  unfold SmartlineV1.read
  rw [string_data_push, List.getLast?_concat, List.dropLast_concat, string_mk_data]

/-- C2 — The checksum is `chr((Σ ord) % 64 + 64)` and its code point lies in
`[64, 127]`. -/
theorem checksum_formula_and_range (s : String) :
    SmartlineV1._checksum s =
        Char.ofNat ((s.data.map Char.toNat).sum % 64 + 64) ∧
      64 ≤ (SmartlineV1._checksum s).toNat ∧
      (SmartlineV1._checksum s).toNat ≤ 127 := by
  refine ⟨rfl, ?_, ?_⟩ <;>
  · unfold SmartlineV1._checksum
    have hlt : (s.data.map Char.toNat).sum % 64 < 64 :=
      Nat.mod_lt _ (by norm_num)
    rw [char_toNat_ofNat (Or.inl (by omega))]
    omega

/-- C7 — The checksum is invariant under permutation of the message's
characters (it is a plain sum of character codes). -/
theorem checksum_perm_invariant (s t : String) (h : s.data.Perm t.data) :
    SmartlineV1._checksum s = SmartlineV1._checksum t := by
  unfold SmartlineV1._checksum
  rw [List.Perm.sum_eq (List.Perm.map Char.toNat h)]

/-- C7 witness: concrete permuted messages share a checksum. -/
theorem checksum_perm_invariant_witness :
    "ab".data.Perm "ba".data ∧
      SmartlineV1._checksum "ab" = SmartlineV1._checksum "ba" :=
  ⟨by decide, checksum_perm_invariant "ab" "ba" (by decide)⟩

/-- C3 — On any received line of length ≥ 2 (written `body.push c` with
`body` nonempty), decoding fails iff the final character differs from the
checksum recomputed over the preceding characters; the failure carries the
raw line, the expected checksum and the received character, and success
returns the line with its checksum character removed. -/
theorem read_checksum_check (body : String) (c : Char) (h : 1 ≤ body.length) :
    SmartlineV1.read (body.push c) =
      if c = SmartlineV1._checksum body then .ok body
      else .error (.checksumError (body.push c) (SmartlineV1._checksum body) c) :=
  read_push body c

/-- C3 witness: a correct frame `"001M" ++ checksum` decodes to `"001M"`,
and the same frame with checksum character `'!'` fails with a checksum
error carrying the raw line and both checksums. -/
theorem read_checksum_check_witness :
    1 ≤ ("001M" : String).length ∧
      SmartlineV1.read ("001M".push (SmartlineV1._checksum "001M")) =
        .ok "001M" ∧
      SmartlineV1.read ("001M".push '!') =
        .error (.checksumError ("001M".push '!')
          (SmartlineV1._checksum "001M") '!') := by
  refine ⟨by decide, ?_, ?_⟩
  · rw [read_checksum_check "001M" _ (by decide)]
    simp
  · rw [read_checksum_check "001M" '!' (by decide)]
    decide

/-- C1 — Loopback round-trip: encoding a request for an address in 1..15,
a command letter and printable-ASCII data, then decoding the transmitted
frame (terminator removed) recovers the body
`zero_pad(address, 3) ++ letter ++ data` exactly. -/
theorem write_read_roundtrip (a : Int) (letter : Char) (data : String)
    (h1 : 1 ≤ a) (h15 : a ≤ 15)
    (hdata : data.data.all (fun ch => 32 ≤ ch.toNat && ch.toNat ≤ 126)) :
    SmartlineV1.read
        ((SmartlineV1.write (SmartlineV1.init a)
          (String.singleton letter ++ data)).2) =
      .ok (SmartlineV1.format03d a ++ String.singleton letter ++ data) := by
  unfold SmartlineV1.write SmartlineV1.init
  rw [read_push, if_pos rfl, String.append_assoc]

/-- C1 witness: address 1, letter `'M'`, empty data round-trips. -/
theorem write_read_roundtrip_witness :
    1 ≤ (1 : Int) ∧ (1 : Int) ≤ 15 ∧
      ("" : String).data.all (fun ch => 32 ≤ ch.toNat && ch.toNat ≤ 126) ∧
      SmartlineV1.read
          ((SmartlineV1.write (SmartlineV1.init 1)
            (String.singleton 'M' ++ "")).2) =
        .ok (SmartlineV1.format03d 1 ++ String.singleton 'M' ++ "") :=
  ⟨by decide, by decide, by decide,
    write_read_roundtrip 1 'M' "" (by decide) (by decide) (by decide)⟩

/-- C4 counterexample — the claim "empty or length-1 lines fail with a
frame-too-short error and never with an index fault" is false on the code:
the empty line fails with the index fault from `msg[-1]`, and the length-1
line `"@"` does not fail at all (the checksum of the empty message is
`'@'`, so `read` succeeds and returns the empty message). -/
theorem read_short_line_claim_false :
    SmartlineV1.read "" = .error .indexError ∧
      SmartlineV1.read "@" = .ok "" := by
  constructor <;> decide

/-- C4 amended — `read` has no too-short branch: the empty line fails with
the `IndexError` of `msg[-1]`, and a length-1 line is put through the
ordinary checksum comparison against the empty message, succeeding with
the empty message exactly when its single character is the checksum `'@'`
of the empty string. -/
theorem read_short_line_behavior :
    SmartlineV1.read "" = .error .indexError ∧
      ∀ c : Char, SmartlineV1.read (String.singleton c) =
        if c = SmartlineV1._checksum "" then .ok ""
        else .error (.checksumError (String.singleton c)
          (SmartlineV1._checksum "") c) :=
  ⟨by decide, fun c => read_push "" c⟩

/-! ## Address serialization (C5) -/

set_option maxRecDepth 10000 in
theorem natRepr_length_le_three : ∀ n, n < 1000 → (Nat.repr n).length ≤ 3 := by
  decide

set_option maxRecDepth 10000 in
theorem natRepr_all_digits : ∀ n, n < 1000 → (Nat.repr n).data.all Char.isDigit := by
  decide

/-- C5 counterexample — the claim "every integer address serializes to
exactly 3 zero-padded decimal digits" is false on the code: `f"{a:03d}"`
has *minimum* width 3, so address 1000 serializes to the 4-character
`"1000"`, and a negative address carries a minus sign rather than being
all decimal digits. -/
theorem format03d_claim_false :
    SmartlineV1.format03d 1000 = "1000" ∧
      (SmartlineV1.format03d 1000).length ≠ 3 ∧
      SmartlineV1.format03d (-1) = "-01" ∧
      (SmartlineV1.format03d (-1)).data.all Char.isDigit = false := by
  refine ⟨by decide, by decide, by decide, by decide⟩

/-- C5 amended — for every address in 0..999 (in particular every valid
address 1–15) the write operation serializes the address as a zero-padded
string of exactly 3 decimal digits at the start of the frame body;
addresses outside that range serialize to a longer decimal string or one
carrying a minus sign. -/
theorem format03d_three_digits (a : Int) (cmd : String)
    (h0 : 0 ≤ a) (h999 : a ≤ 999) :
    (SmartlineV1.format03d a).length = 3 ∧
      (SmartlineV1.format03d a).data.all Char.isDigit ∧
      ((SmartlineV1.init a).write cmd).2.data.take 3 =
        (SmartlineV1.format03d a).data := by
  have hlt : a.toNat < 1000 := by omega
  have hneg : ¬ a < 0 := by omega
  have hlen : (SmartlineV1.format03d a).data.length = 3 := by
    show (SmartlineV1.format03d a).length = 3
    unfold SmartlineV1.format03d
    rw [if_neg hneg]
    show (List.replicate _ '0' ++ (Nat.repr a.toNat).data).length = 3
    rw [List.length_append, List.length_replicate]
    have h1 := natRepr_length_le_three a.toNat hlt
    have h2 := string_length_eq (Nat.repr a.toNat)
    omega
  refine ⟨hlen, ?_, ?_⟩
  · unfold SmartlineV1.format03d
    rw [if_neg hneg]
    show (List.replicate _ '0' ++ (Nat.repr a.toNat).data).all Char.isDigit = true
    rw [List.all_append, natRepr_all_digits a.toNat hlt, Bool.and_true,
      List.all_eq_true]
    intro c hc
    rw [List.eq_of_mem_replicate hc]
    decide
  · unfold SmartlineV1.write SmartlineV1.init
    rw [string_data_push, string_data_append, List.append_assoc]
    exact List.take_left' hlen

/-- C5 amended witness: address 7 serializes as `"007"` at the start of the
body. -/
theorem format03d_three_digits_witness :
    0 ≤ (7 : Int) ∧ (7 : Int) ≤ 999 ∧
      ((SmartlineV1.format03d 7).length = 3 ∧
        (SmartlineV1.format03d 7).data.all Char.isDigit ∧
        ((SmartlineV1.init 7).write "M").2.data.take 3 =
          (SmartlineV1.format03d 7).data) :=
  ⟨by decide, by decide, format03d_three_digits 7 "M" (by decide) (by decide)⟩

/-! ## Pressure decoding (C6) -/

/-- Splitting lemma for the pressure decoder: on a field of the shape
`m ++ e` with a 4-character `m`, the slices `s[:4]` and `s[4:]` are `m`
and `e`. -/
theorem pressure_get_process_split (m e : String) (hm : m.length = 4) :
    SmartlineV1.pressure_get_process (m ++ e) =
      (SmartlineV1.parseDecimal m : ℚ) / 1000 *
        (10 : ℚ) ^ ((SmartlineV1.parseDecimal e : ℤ) - 20) := by
  have hm' : m.data.length = 4 := hm
  unfold SmartlineV1.pressure_get_process
  rw [string_data_append, List.take_left' hm', List.drop_left' hm',
    string_mk_data, string_mk_data]

/-- C6 counterexample — the claim's example `"050020" ↦ 0.05` is false on
the code: the mantissa slice is the full 4 characters `"0500"`, i.e. 500,
so the field decodes to `500/1000 = 0.5`, not `0.05`. -/
theorem pressure_claim_example_false :
    SmartlineV1.pressure_get_process "050020" ≠ 1/20 ∧
      SmartlineV1.pressure_get_process "050020" = 1/2 := by
  have hsplit : ("0500" : String) ++ "20" = "050020" := by decide
  have h4 : ("0500" : String).length = 4 := by decide
  have hv : SmartlineV1.pressure_get_process "050020" = (1 : ℚ)/2 := by
    rw [← hsplit, pressure_get_process_split _ _ h4]
    have h1 : SmartlineV1.parseDecimal "0500" = 500 := by decide
    have h2 : SmartlineV1.parseDecimal "20" = 20 := by decide
    rw [h1, h2]
    norm_num
  exact ⟨by rw [hv]; norm_num, hv⟩

/-- C6 amended — the decoder computes
`mantissa / 1000 * 10 ^ (exponent - 20)` from the first 4 characters and
the rest of the field; `"100020"` decodes to `1.0` and `"050020"` decodes
to `0.5` (mantissa `"0500"` = 500), not `0.05`. -/
theorem pressure_decode_formula (m e : String) (hm : m.length = 4)
    (hmd : m.data.all Char.isDigit) (hed : e.data.all Char.isDigit) :
    SmartlineV1.pressure_get_process (m ++ e) =
        (SmartlineV1.parseDecimal m : ℚ) / 1000 *
          (10 : ℚ) ^ ((SmartlineV1.parseDecimal e : ℤ) - 20) ∧
      SmartlineV1.pressure_get_process "100020" = 1 ∧
      SmartlineV1.pressure_get_process "050020" = 1/2 := by
  refine ⟨pressure_get_process_split m e hm, ?_, ?_⟩
  · have hsplit : ("1000" : String) ++ "20" = "100020" := by decide
    rw [← hsplit, pressure_get_process_split _ _ (by decide)]
    have h1 : SmartlineV1.parseDecimal "1000" = 1000 := by decide
    have h2 : SmartlineV1.parseDecimal "20" = 20 := by decide
    rw [h1, h2]
    norm_num
  · have hsplit : ("0500" : String) ++ "20" = "050020" := by decide
    rw [← hsplit, pressure_get_process_split _ _ (by decide)]
    have h1 : SmartlineV1.parseDecimal "0500" = 500 := by decide
    have h2 : SmartlineV1.parseDecimal "20" = 20 := by decide
    rw [h1, h2]
    norm_num

/-- C6 amended witness: the field `"003420"` splits as mantissa `"0034"`
and exponent `"20"`. -/
theorem pressure_decode_formula_witness :
    ("0034" : String).length = 4 ∧
      ("0034" : String).data.all Char.isDigit = true ∧
      ("20" : String).data.all Char.isDigit = true ∧
      (SmartlineV1.pressure_get_process ("0034" ++ "20") =
          (SmartlineV1.parseDecimal "0034" : ℚ) / 1000 *
            (10 : ℚ) ^ ((SmartlineV1.parseDecimal "20" : ℤ) - 20) ∧
        SmartlineV1.pressure_get_process "100020" = 1 ∧
        SmartlineV1.pressure_get_process "050020" = 1/2) :=
  ⟨by decide, by decide, by decide,
    pressure_decode_formula "0034" "20" (by decide) (by decide) (by decide)⟩

/-! ## Acknowledgement checking (C9) -/

/-- C9 — `check_errors` on a decoded acknowledgement message: fails with
the too-short error exactly on messages of fewer than 4 characters, fails
with the device error exactly when index 3 holds `'N'` or `'X'`, and
returns the empty error list otherwise. -/
theorem check_errors_cases (reply : String) :
    (reply.length < 4 →
      SmartlineV1.check_errors reply = .error (.frameTooShort reply)) ∧
    (4 ≤ reply.length →
      (reply.data.getD 3 ' ' = 'N' ∨ reply.data.getD 3 ' ' = 'X') →
      SmartlineV1.check_errors reply = .error (.deviceError reply)) ∧
    (4 ≤ reply.length → reply.data.getD 3 ' ' ≠ 'N' →
      reply.data.getD 3 ' ' ≠ 'X' →
      SmartlineV1.check_errors reply = .ok []) := by
  refine ⟨fun h => ?_, fun h4 hNX => ?_, fun h4 hN hX => ?_⟩ <;>
    unfold SmartlineV1.check_errors
  · rw [if_pos h]
  · rw [if_neg (by omega), if_pos hNX]
  · rw [if_neg (by omega), if_neg (by tauto)]

/-- C9 witness: `"ab"` is too short, `"012N"` is a device error, `"012I1"`
reports no errors. -/
theorem check_errors_cases_witness :
    SmartlineV1.check_errors "ab" = .error (.frameTooShort "ab") ∧
      SmartlineV1.check_errors "012N" = .error (.deviceError "012N") ∧
      SmartlineV1.check_errors "012I1" = .ok [] :=
  ⟨(check_errors_cases "ab").1 (by decide),
    (check_errors_cases "012N").2.1 (by decide) (by decide),
    (check_errors_cases "012I1").2.2 (by decide) (by decide) (by decide)⟩

/-! ## Address immutability (C10) -/

/-- C10 — construction stores the address, and every protocol operation
(frame encode/write, decode/read, acknowledgement check), viewed as a
state transformer on the device instance, leaves the stored address
unchanged. -/
theorem address_unchanged (a : Int) (dev : SmartlineV1)
    (cmd raw ack : String) :
    (SmartlineV1.init a).address = a ∧
      (dev.write cmd).1.address = dev.address ∧
      (dev.readOp raw).1.address = dev.address ∧
      (dev.check_errorsOp ack).1.address = dev.address :=
  ⟨rfl, rfl, rfl, rfl⟩

/-! ## Attribute write validation (C8) -/

/-- A dynamically typed value handed to an attribute setter, as Python
callers may pass booleans, integers or strings. -/
inductive PyVal
  | bool (b : Bool)
  | int (n : Int)
  | str (s : String)
deriving DecidableEq

/-- The value carried by the validation failure of a strict discrete-set
validator. -/
structure ValidationError where
  value : PyVal
deriving DecidableEq

/-- Modelled from the spec: the `strict_discrete_set` validator and the
`Instrument.control` set path live outside this file's source (in
`pymeasure.instruments.validators` and the `Instrument` base class, which
only declare the `unit` attribute's domain here).  Per the spec, the
`unit` write value must be one of the three unit names, mapped through
`{"mbar": 0, "Torr": 1, "hPa": 2}`. -/
def unitSetMap : PyVal → Option Nat
  | .str "mbar" => some 0
  | .str "Torr" => some 1
  | .str "hPa" => some 2
  | _ => none

/-- Modelled from the spec: domain of the `cathode_enabled` write value,
a boolean mapped through `{True: 1, False: 0}`. -/
def cathodeSetMap : PyVal → Option Nat
  | .bool true => some 1
  | .bool false => some 0
  | _ => none

/-- Python's `"%0*d"` formatting of a nonnegative mapped value. -/
def format0d (width : Nat) (n : Nat) : String :=
  let ds := Nat.repr n
  String.mk (List.replicate (width - ds.length) '0') ++ ds

/-- Modelled from the spec: writing the `unit` attribute validates the
value against its declared domain and fails with a `ValidationError`
before any transmission; on success it formats the `"u%06d"` payload and
transmits exactly one frame.  Returns the transmitted frames together
with the validation outcome. -/
def set_unit (dev : SmartlineV1) (v : PyVal) :
    List String × Option ValidationError :=
  match unitSetMap v with
  | none => ([], some ⟨v⟩)
  | some n => ([(dev.write ("u" ++ format0d 6 n)).2], none)

/-- Modelled from the spec: writing the `cathode_enabled` attribute
validates the value against its boolean domain and fails with a
`ValidationError` before any transmission; on success it formats the
`"i%d"` payload and transmits exactly one frame. -/
def set_cathode_enabled (dev : SmartlineV1) (v : PyVal) :
    List String × Option ValidationError :=
  match cathodeSetMap v with
  | none => ([], some ⟨v⟩)
  | some n => ([(dev.write ("i" ++ Nat.repr n)).2], none)

/-- C8 — writing `unit` or `cathode_enabled` with a value outside the
attribute's declared domain fails with a `ValidationError` and transmits
no frame at all. -/
theorem invalid_set_value_rejected (dev : SmartlineV1) (v : PyVal) :
    (unitSetMap v = none → set_unit dev v = ([], some ⟨v⟩)) ∧
      (cathodeSetMap v = none → set_cathode_enabled dev v = ([], some ⟨v⟩)) := by
  refine ⟨fun h => ?_, fun h => ?_⟩
  · unfold set_unit
    rw [h]
  · unfold set_cathode_enabled
    rw [h]

/-- C8 witness: the out-of-domain values `"bar"` (for `unit`) and `1`
(for `cathode_enabled`, whose spec domain is boolean) are rejected with
no transmitted frames. -/
theorem invalid_set_value_rejected_witness :
    unitSetMap (.str "bar") = none ∧
      set_unit (SmartlineV1.init 1) (.str "bar") =
        ([], some ⟨.str "bar"⟩) ∧
      cathodeSetMap (.str "on") = none ∧
      set_cathode_enabled (SmartlineV1.init 1) (.str "on") =
        ([], some ⟨.str "on"⟩) :=
  ⟨rfl, (invalid_set_value_rejected (SmartlineV1.init 1) (.str "bar")).1 rfl,
    rfl, (invalid_set_value_rejected (SmartlineV1.init 1) (.str "on")).2 rfl⟩
